import Mathlib

/-! # Verification of the copypasta clipboard library

Shallow embedding of `src/common.rs`, `src/osx_clipboard.rs` and
`src/x11rb_clipboard.rs`.  Rust byte vectors are `List Nat`, Rust strings
are Lean `String`, and fallible Rust functions return an `Outcome` that
distinguishes `Ok`, `Err` and a panic (`todo!` / failed assertion).
External state (the macOS pasteboard, the X11 server) is passed
explicitly: the pasteboard as a value, the X11 side as an environment
record of the replies the server would give.
-/

namespace Copypasta

/-- Model of `ContentType` from `common.rs`: the portable content-type enumeration
with a `Custom` escape hatch. -/
inductive ContentType where
  | text
  | html
  | pdf
  | png
  | rtf
  | url
  | custom (s : String)
deriving DecidableEq

/-- Result of a fallible Rust call: `Ok`, `Err(msg)` (the boxed string
errors used throughout the crate), or a panic (`todo!`, failed assert). -/
inductive Outcome (α : Type) where
  | ok (a : α)
  | err (msg : String)
  | panicked (msg : String)
deriving DecidableEq

/-- True exactly on the `err` constructor. -/
def Outcome.isErr {α : Type} : Outcome α → Bool
  | .err _ => true
  | _ => false

/-- True exactly on the `panicked` constructor. -/
def Outcome.isPanicked {α : Type} : Outcome α → Bool
  | .panicked _ => true
  | _ => false

/-- True exactly on the `ok` constructor. -/
def Outcome.isOk {α : Type} : Outcome α → Bool
  | .ok _ => true
  | _ => false

/-! ## `common.rs`: default trait methods of `ClipboardProvider` -/

/-- Default `ClipboardProvider::get_content_types` (`common.rs` line 28). -/
def default_get_content_types : Outcome (List ContentType) :=
  .err "unsupported for this platform"

/-- Default `ClipboardProvider::get_content_for_type` (`common.rs` line 32). -/
def default_get_content_for_type (_ct : ContentType) : Outcome (List Nat) :=
  .err "unsupported for this platform"

/-- Default `ClipboardProvider::set_content_types` (`common.rs` line 36).
The `HashMap` argument is modelled as an association list with unique keys. -/
def default_set_content_types (_m : List (ContentType × List Nat)) : Outcome Unit :=
  .err "unsupported for this platform"

/-- Default `ClipboardProvider::normalize_content_type` (`common.rs` line 41):
`todo!("not implemented for this platform")`, which panics. -/
def default_normalize_content_type (_ct : ContentType) : Outcome ContentType :=
  .panicked "not yet implemented: not implemented for this platform"

/-- Default `ClipboardProvider::denormalize_content_type` (`common.rs` line 46):
`todo!("not implemented for this platform")`, which panics. -/
def default_denormalize_content_type (_ct : ContentType) : Outcome String :=
  .panicked "not yet implemented: not implemented for this platform"

/-! ## `osx_clipboard.rs`: content-type conversion -/

/-- Model of `impl<T: AsRef<str>> From<T> for ContentType` (`osx_clipboard.rs`
lines 219-231): native pasteboard identifier string to `ContentType`. -/
def contentTypeFromStr (t : String) : ContentType :=
  if t = "public.file-url" then .url
  else if t = "public.html" then .html
  else if t = "com.adobe.pdf" then .pdf
  else if t = "public.png" then .png
  else if t = "public.rtf" then .rtf
  else if t = "public.utf8-plain-text" then .text
  else .custom t

/-- Model of `OSXClipboardContext::normalize_content_type` (`osx_clipboard.rs`
lines 185-190). -/
def osx_normalize_content_type (ct : ContentType) : ContentType :=
  match ct with
  | .custom s => contentTypeFromStr s
  | _ => ct

/-- Model of `OSXClipboardContext::denormalize_content_type` (`osx_clipboard.rs`
lines 192-203). -/
def osx_denormalize_content_type (ct : ContentType) : String :=
  match ct with
  | .url => "public.file-url"
  | .html => "public.html"
  | .pdf => "com.adobe.pdf"
  | .png => "public.png"
  | .rtf => "public.rtf"
  | .text => "public.utf8-plain-text"
  | .custom s => s

/-! ## `osx_clipboard.rs`: pasteboard model and operations

The `NSPasteboard` is modelled as the list of its items; an
`NSPasteboardItem` is the association of native type strings to data, in
the order the types were set. -/

/-- An `NSPasteboardItem`: native type identifier strings paired with the
data set for them (`setData:forType:`); `types` is the list of firsts. -/
structure PasteboardItem where
  entries : List (String × List Nat)
deriving DecidableEq

/-- The `NSPasteboard` state: its current items. -/
structure Pasteboard where
  items : List PasteboardItem
deriving DecidableEq

/-- Model of `OSXClipboardContext::first_item` (`osx_clipboard.rs` lines 63-77):
the first pasteboard item, if any. -/
def first_item (pb : Pasteboard) : Option PasteboardItem :=
  pb.items.head?

/-- Model of `NSPasteboardItem setData:forType:`: sets the data for a type,
replacing the data if the type is already present, appending otherwise. -/
def setDataForType (item : PasteboardItem) (typ : String) (data : List Nat) :
    PasteboardItem :=
  if item.entries.any (fun e => e.1 = typ) then
    ⟨item.entries.map (fun e => if e.1 = typ then (typ, data) else e)⟩
  else
    ⟨item.entries ++ [(typ, data)]⟩

/-- Model of `OSXClipboardContext::get_contents` (`osx_clipboard.rs` lines 81-105),
as a function of what `readObjectsForClasses:options:` returns for
`NSString`: `none` models a null return, `some l` the string array. -/
def osx_get_contents (readResult : Option (List String)) : Outcome String :=
  match readResult with
  | none => .err "pasteboard#readObjectsForClasses:options: returned null"
  | some [] => .err "pasteboard#readObjectsForClasses:options: returned empty"
  | some (s :: _) => .ok s

/-- Model of `OSXClipboardContext::get_content_types` (`osx_clipboard.rs`
lines 122-136): empty pasteboard yields `Ok []`; otherwise each native
type string of the first item is converted via the `From` impl. -/
def osx_get_content_types (pb : Pasteboard) : Outcome (List ContentType) :=
  match first_item pb with
  | none => .ok []
  | some item => .ok (item.entries.map (fun e => contentTypeFromStr e.1))

/-- Model of `OSXClipboardContext::set_content_types` (`osx_clipboard.rs`
lines 158-183): build one `NSPasteboardItem` holding every pair of the
map (keys denormalized to native strings), then `clearContents` and
`writeObjects` with that single item.  `writeOk` is whether
`writeObjects:` reports success.  Returns the new pasteboard state and
the call's outcome. -/
def osx_set_content_types (_pb : Pasteboard) (m : List (ContentType × List Nat))
    (writeOk : Bool) : Pasteboard × Outcome Unit :=
  let item := m.foldl
    (fun it kv => setDataForType it (osx_denormalize_content_type kv.1) kv.2) ⟨[]⟩
  if writeOk then (⟨[item]⟩, .ok ()) else (⟨[]⟩, .err "writeObject failed")

/-! ## UTF-8 decoding

Model of Rust `String::from_utf8`: byte-exact UTF-8 validation (the
ranges of `core::str` validity, excluding overlong forms and surrogates)
together with decoding to the character sequence. -/

/-- Is `b` a UTF-8 continuation byte (`0x80`-`0xBF`)? -/
def isCont (b : Nat) : Bool :=
  decide (128 ≤ b ∧ b ≤ 191)

/-- Decode a byte list as UTF-8; `none` exactly when Rust
`String::from_utf8` would report `FromUtf8Error`. -/
def utf8DecodeChars : List Nat → Option (List Char)
  | [] => some []
  | b :: rest =>
    if b < 128 then
      (utf8DecodeChars rest).map (fun cs => Char.ofNat b :: cs)
    else if b < 194 then
      none
    else if b ≤ 223 then
      match rest with
      | c1 :: r =>
        if isCont c1 then
          (utf8DecodeChars r).map
            (fun cs => Char.ofNat ((b - 192) * 64 + (c1 - 128)) :: cs)
        else none
      | _ => none
    else if b ≤ 239 then
      match rest with
      | c1 :: c2 :: r =>
        let lo1 : Nat := if b = 224 then 160 else 128
        let hi1 : Nat := if b = 237 then 159 else 191
        if decide (lo1 ≤ c1 ∧ c1 ≤ hi1) && isCont c2 then
          (utf8DecodeChars r).map
            (fun cs =>
              Char.ofNat ((b - 224) * 4096 + (c1 - 128) * 64 + (c2 - 128)) :: cs)
        else none
      | _ => none
    else if b ≤ 244 then
      match rest with
      | c1 :: c2 :: c3 :: r =>
        let lo1 : Nat := if b = 240 then 144 else 128
        let hi1 : Nat := if b = 244 then 143 else 191
        if decide (lo1 ≤ c1 ∧ c1 ≤ hi1) && isCont c2 && isCont c3 then
          (utf8DecodeChars r).map
            (fun cs =>
              Char.ofNat
                ((b - 240) * 262144 + (c1 - 128) * 4096 + (c2 - 128) * 64 +
                  (c3 - 128)) :: cs)
        else none
      | _ => none
    else none

/-- Rust `String::from_utf8` as a partial decode to a Lean string. -/
def utf8Decode? (l : List Nat) : Option String :=
  (utf8DecodeChars l).map (fun cs => ⟨cs⟩)

/-! ## `x11rb_clipboard.rs`: the selection-protocol client

Atoms and windows are numbers.  The X server side is an environment: the
reply it gives to each `GetProperty` request, the name bytes it returns
for each atom, the ordered events it delivers to this connection, and an
optional connection error ending the event stream (`wait_for_event`
blocks forever once the listed events are consumed unless `connError`
is set). -/

/-- The fields of an `xproto` `GetProperty` request as issued by
`get_full_property`. -/
structure GetPropertyRequest where
  delete : Bool
  window : Nat
  property : Nat
  type_ : Nat
  longOffset : Nat
  longLength : Nat
deriving DecidableEq

/-- The parts of a `GetPropertyReply` the code consumes: `format`,
`bytes_after` and `value`. -/
structure GetPropertyReply where
  format : Nat
  bytesAfter : Nat
  value : List Nat
deriving DecidableEq

/-- Incoming X11 events as the two shapes the code distinguishes:
`SelectionNotify` (whose fields the code binds as `_ev` and ignores) and
everything else. -/
inductive XEvent where
  | selectionNotify (requestor : Nat) (property : Nat)
  | other (tag : Nat)
deriving DecidableEq

/-- Does the event match the `Event::SelectionNotify(_ev)` arm? -/
def XEvent.isSelectionNotify : XEvent → Bool
  | .selectionNotify _ _ => true
  | .other _ => false

/-- The X server environment for one call. -/
structure X11Env where
  getProperty : GetPropertyRequest → GetPropertyReply
  atomNameBytes : Nat → List Nat
  events : List XEvent
  connError : Option String

/-- Model of the `X11RbClipboardContext` interned state (`x11rb_clipboard.rs`
lines 13-22): the window id and the atoms resolved at construction. -/
structure X11Ctx where
  window : Nat
  clipboard : Nat
  utf8_string : Nat
  targets : Nat
  property : Nat
  atom : Nat

/-- Model of `X11RbClipboardContext::get_full_property` (`x11rb_clipboard.rs`
lines 54-69): issues `get_property(delete, window, property, type_, 0,
u32::MAX)` and asserts `bytes_after == 0`.  Returns the request issued
together with the outcome; a nonzero remainder trips the assertion. -/
def get_full_property (env : X11Env) (delete : Bool) (window : Nat)
    (property type_ : Nat) : GetPropertyRequest × Outcome GetPropertyReply :=
  let req : GetPropertyRequest := ⟨delete, window, property, type_, 0, 4294967295⟩
  (req,
    let reply := env.getProperty req
    if reply.bytesAfter = 0 then .ok reply
    else .panicked "assertion failed: reply.bytes_after == 0")

/-- The request `get_contents` makes when reading the converted text from
its scratch property. -/
def x11TextRequest (ctx : X11Ctx) : GetPropertyRequest :=
  ⟨false, ctx.window, ctx.property, ctx.utf8_string, 0, 4294967295⟩

/-- The request `get_content_types` makes when reading the converted
target list from its scratch property. -/
def x11TargetsRequest (ctx : X11Ctx) : GetPropertyRequest :=
  ⟨false, ctx.window, ctx.property, ctx.atom, 0, 4294967295⟩

/-- The `Event::SelectionNotify` arm of `get_contents`
(`x11rb_clipboard.rs` lines 87-94): read the scratch property with
delete disabled and type `utf8_string`, then `String::from_utf8`. -/
def x11_read_converted_text (env : X11Env) (ctx : X11Ctx) :
    GetPropertyRequest × Outcome String :=
  let pr := get_full_property env false ctx.window ctx.property ctx.utf8_string
  (pr.1,
    match pr.2 with
    | .ok reply =>
      match utf8Decode? reply.value with
      | some s => .ok s
      | none => .err "invalid utf-8"
    | .err m => .err m
    | .panicked m => .panicked m)

/-- Model of `atom_name` (`x11rb_clipboard.rs` lines 143-146): fetch the atom's
name bytes and decode them with `String::from_utf8`. -/
def atom_name (env : X11Env) (a : Nat) : Outcome String :=
  match utf8Decode? (env.atomNameBytes a) with
  | some s => .ok s
  | none => .err "invalid utf-8"

/-- Reassemble the property value bytes into 32-bit words, as the
`value32` iterator of `GetPropertyReply` does. -/
def toU32List : List Nat → List Nat
  | b0 :: b1 :: b2 :: b3 :: rest =>
    (b0 + 256 * b1 + 65536 * b2 + 16777216 * b3) :: toU32List rest
  | _ => []

/-- Model of `GetPropertyReply::value32`: `none` unless the reply format is 32. -/
def value32? (r : GetPropertyReply) : Option (List Nat) :=
  if r.format = 32 then some (toU32List r.value) else none

/-- The `for atom in val.value32()` loop of `get_content_types`
(`x11rb_clipboard.rs` lines 125-128): resolve each atom's name, wrapping
each as `ContentType::Custom`; the first failing lookup aborts. -/
def collectTargetNames (env : X11Env) : List Nat → Outcome (List ContentType)
  | [] => .ok []
  | a :: rest =>
    match atom_name env a with
    | .ok n =>
      match collectTargetNames env rest with
      | .ok cts => .ok (.custom n :: cts)
      | .err m => .err m
      | .panicked m => .panicked m
    | .err m => .err m
    | .panicked m => .panicked m

/-- The `Event::SelectionNotify` arm of `get_content_types`
(`x11rb_clipboard.rs` lines 121-129): read the scratch property with
type `atom`, require format 32, and resolve every listed atom. -/
def x11_read_targets (env : X11Env) (ctx : X11Ctx) :
    GetPropertyRequest × Outcome (List ContentType) :=
  let pr := get_full_property env false ctx.window ctx.property ctx.atom
  (pr.1,
    match pr.2 with
    | .ok reply =>
      match value32? reply with
      | none => .err "invalid response format for targets"
      | some atoms => collectTargetNames env atoms
    | .err m => .err m
    | .panicked m => .panicked m)

/-- The blocking event loop of `get_contents` (`x11rb_clipboard.rs`
lines 84-100): wait for events, ignore everything but
`SelectionNotify`, then read and decode the property.  `none` means the
loop is still blocked in `wait_for_event` with no event left. -/
def x11_wait_text (env : X11Env) (ctx : X11Ctx) :
    List XEvent → Option (Outcome String)
  | [] =>
    match env.connError with
    | some m => some (.err m)
    | none => none
  | .selectionNotify _ _ :: _ => some (x11_read_converted_text env ctx).2
  | .other _ :: rest => x11_wait_text env ctx rest

/-- The blocking event loop of `get_content_types` (`x11rb_clipboard.rs`
lines 118-135). -/
def x11_wait_targets (env : X11Env) (ctx : X11Ctx) :
    List XEvent → Option (Outcome (List ContentType))
  | [] =>
    match env.connError with
    | some m => some (.err m)
    | none => none
  | .selectionNotify _ _ :: _ => some (x11_read_targets env ctx).2
  | .other _ :: rest => x11_wait_targets env ctx rest

/-- Model of `X11RbClipboardContext::get_contents` (`x11rb_clipboard.rs`
lines 73-101): convert the selection to `utf8_string`, then run the
event loop over the events the server delivers. -/
def x11_get_contents (env : X11Env) (ctx : X11Ctx) : Option (Outcome String) :=
  x11_wait_text env ctx env.events

/-- Model of `X11RbClipboardContext::get_content_types` (`x11rb_clipboard.rs`
lines 107-136). -/
def x11_get_content_types (env : X11Env) (ctx : X11Ctx) :
    Option (Outcome (List ContentType)) :=
  x11_wait_targets env ctx env.events

/-- Model of `X11RbClipboardContext::set_contents` (`x11rb_clipboard.rs`
lines 103-105): `todo!()`, which panics. -/
def x11_set_contents (_data : String) : Outcome Unit :=
  .panicked "not yet implemented"

/-! ## Concrete instances used to exercise the model -/

/-- A session context with distinct atom values (window 1, CLIPBOARD 2,
UTF8_STRING 3, TARGETS 4, PROPERTY 5, ATOM 6). -/
def ctx0 : X11Ctx :=
  ⟨1, 2, 3, 4, 5, 6⟩

/-- Empty clipboard: no selection owner.  The server answers the
conversion request itself with `SelectionNotify` carrying property
`None` (0), and the scratch property was never written, so every
`GetProperty` returns the empty reply with format 0. -/
def envEmptyClipboard : X11Env :=
  ⟨fun _ => ⟨0, 0, []⟩, fun _ => [], [.selectionNotify 1 0], none⟩

/-- A selection owner that answers `TARGETS` with the atom 7 listed
twice, atom 7 being named `UTF8_STRING` (bytes below). -/
def envTargetsDup : X11Env :=
  ⟨fun _ => ⟨32, 0, [7, 0, 0, 0, 7, 0, 0, 0]⟩,
   fun _ => [85, 84, 70, 56, 95, 83, 84, 82, 73, 78, 71],
   [.selectionNotify 1 5], none⟩

/-- A selection owner whose converted text is the single byte 255,
which is not valid UTF-8. -/
def envBadUtf8 : X11Env :=
  ⟨fun _ => ⟨8, 0, [255]⟩, fun _ => [], [.selectionNotify 1 5], none⟩

/-- An event stream holding only unrelated traffic and no connection
error: the wait never ends. -/
def envWaitOnly : X11Env :=
  ⟨fun _ => ⟨0, 0, []⟩, fun _ => [], [.other 9, .other 3], none⟩

/-- A nonempty pasteboard state, to be wiped by a replace. -/
def pbW : Pasteboard :=
  ⟨[⟨[("old-type", [0])]⟩]⟩

/-- A two-entry mapping with normalized, distinct keys. -/
def mW : List (ContentType × List Nat) :=
  [(.text, [104, 105]), (.png, [1, 2])]

/-! ## Theorems -/

/-- Claim C1: for each of the six native format strings recognized by
the macOS backend, `normalize_content_type (Custom s)` is the matching
well-known variant, and `denormalize_content_type` of that variant
returns exactly `s`. -/
theorem c1_osx_native_roundtrip :
    (osx_normalize_content_type (.custom "public.file-url") = .url ∧
      osx_denormalize_content_type .url = "public.file-url") ∧
    (osx_normalize_content_type (.custom "public.html") = .html ∧
      osx_denormalize_content_type .html = "public.html") ∧
    (osx_normalize_content_type (.custom "com.adobe.pdf") = .pdf ∧
      osx_denormalize_content_type .pdf = "com.adobe.pdf") ∧
    (osx_normalize_content_type (.custom "public.png") = .png ∧
      osx_denormalize_content_type .png = "public.png") ∧
    (osx_normalize_content_type (.custom "public.rtf") = .rtf ∧
      osx_denormalize_content_type .rtf = "public.rtf") ∧
    (osx_normalize_content_type (.custom "public.utf8-plain-text") = .text ∧
      osx_denormalize_content_type .text = "public.utf8-plain-text") := by
  decide

/-- Claim C10: the reverse round trip of the macOS pair — for every
non-`Custom` variant `ct`, `normalize (Custom (denormalize ct)) = ct`. -/
theorem c10_osx_reverse_roundtrip :
    osx_normalize_content_type (.custom (osx_denormalize_content_type .text)) = .text ∧
    osx_normalize_content_type (.custom (osx_denormalize_content_type .html)) = .html ∧
    osx_normalize_content_type (.custom (osx_denormalize_content_type .pdf)) = .pdf ∧
    osx_normalize_content_type (.custom (osx_denormalize_content_type .png)) = .png ∧
    osx_normalize_content_type (.custom (osx_denormalize_content_type .rtf)) = .rtf ∧
    osx_normalize_content_type (.custom (osx_denormalize_content_type .url)) = .url := by
  decide

/-- Claim C2 (code bug, evaluation at the failing input): the x11
backend's `get_content_types` wraps every target atom name as
`ContentType::Custom` without normalizing — here the owner offers
`UTF8_STRING`, the backend's own text format, twice — and nothing
de-duplicates, so the result holds the unnormalized element
`Custom "UTF8_STRING"` twice. -/
theorem c2_x11_types_unnormalized_duplicated :
    x11_get_content_types envTargetsDup ctx0 =
      some (.ok [.custom "UTF8_STRING", .custom "UTF8_STRING"]) := by
  decide

/-- Claim C3 (code bug, evaluation at the failing input): on an empty
clipboard the x11 backend's `get_contents` reads the never-written
scratch property, obtains zero bytes, decodes them as the empty string
and returns `Ok ""` — success, not an Empty-kind error.  The macOS
backend does return the "returned empty" error as the claim states. -/
theorem c3_empty_clipboard_text :
    x11_get_contents envEmptyClipboard ctx0 = some (.ok "") ∧
    osx_get_contents (some []) =
      .err "pasteboard#readObjectsForClasses:options: returned empty" := by
  decide

/-- Claim C4 (code bug, evaluation at the failing input): on an empty
clipboard the x11 backend's `get_content_types` receives the empty
reply (format 0), `value32` yields nothing, and the call returns the
error "invalid response format for targets" instead of `Ok []`.  The
macOS backend does return `Ok []` as the claim states. -/
theorem c4_empty_clipboard_types :
    x11_get_content_types envEmptyClipboard ctx0 =
      some (.err "invalid response format for targets") ∧
    osx_get_content_types ⟨[]⟩ = .ok [] := by
  decide

/-- Claim C6 (counterexample): `set_contents` on the selection-protocol
backend is `todo!()`, which panics — it is not an "unsupported" error
result returned to the caller. -/
theorem c6_x11_set_contents_panics :
    x11_set_contents "hello" = .panicked "not yet implemented" ∧
    (x11_set_contents "hello").isErr = false := by
  decide

/-- Claim C6 (amended): the three default capability methods
`get_content_types`, `get_content_for_type` and `set_content_types`
return the "unsupported for this platform" error when a backend does
not override them, but operations left unimplemented with `todo!` —
`set_contents` on the selection-protocol backend and the default
`normalize`/`denormalize` methods — panic rather than returning an
error. -/
theorem c6_unsupported_defaults :
    default_get_content_types = .err "unsupported for this platform" ∧
    (∀ ct, default_get_content_for_type ct = .err "unsupported for this platform") ∧
    (∀ m, default_set_content_types m = .err "unsupported for this platform") ∧
    (∀ s, (x11_set_contents s).isPanicked = true) ∧
    (∀ ct, (default_normalize_content_type ct).isPanicked = true) ∧
    (∀ ct, (default_denormalize_content_type ct).isPanicked = true) :=
  ⟨rfl, fun _ => rfl, fun _ => rfl, fun _ => rfl, fun _ => rfl, fun _ => rfl⟩

/-- Claim C7: in both blocking waits of the selection-protocol client,
every event that is not a `SelectionNotify` is discarded and the wait
continues (the outcome only depends on what follows the first
notification), and with no notification in the stream and no connection
error the wait never terminates. -/
theorem c7_wait_ignores_unrelated (env : X11Env) (ctx : X11Ctx) (es : List XEvent) :
    (x11_wait_text env ctx es =
        x11_wait_text env ctx (es.dropWhile (fun e => !e.isSelectionNotify)) ∧
      x11_wait_targets env ctx es =
        x11_wait_targets env ctx (es.dropWhile (fun e => !e.isSelectionNotify))) ∧
    ((∀ e ∈ es, e.isSelectionNotify = false) → env.connError = none →
      x11_wait_text env ctx es = none ∧ x11_wait_targets env ctx es = none) := by
  induction es with
  | nil =>
    exact ⟨⟨rfl, rfl⟩, fun _ hc => by
      simp [x11_wait_text, x11_wait_targets, hc]⟩
  | cons e rest ih =>
    cases e with
    | selectionNotify w p =>
      refine ⟨⟨?_, ?_⟩, fun hall _ => ?_⟩
      · simp [List.dropWhile, XEvent.isSelectionNotify]
      · simp [List.dropWhile, XEvent.isSelectionNotify]
      · have := hall _ (List.mem_cons_self _ _)
        simp [XEvent.isSelectionNotify] at this
    | other t =>
      have hdrop :
          (XEvent.other t :: rest).dropWhile (fun e => !e.isSelectionNotify) =
            rest.dropWhile (fun e => !e.isSelectionNotify) := by
        simp [List.dropWhile, XEvent.isSelectionNotify]
      have htext : x11_wait_text env ctx (XEvent.other t :: rest) =
          x11_wait_text env ctx rest := rfl
      have htgt : x11_wait_targets env ctx (XEvent.other t :: rest) =
          x11_wait_targets env ctx rest := rfl
      refine ⟨⟨?_, ?_⟩, fun hall hc => ?_⟩
      · rw [htext, hdrop]; exact ih.1.1
      · rw [htgt, hdrop]; exact ih.1.2
      · rw [htext, htgt]
        exact ih.2 (fun x hx => hall x (List.mem_cons_of_mem _ hx)) hc

/-- Claim C7 (witness): a stream of only unrelated events, no connection
error — both waits stay blocked. -/
theorem c7_witness :
    (∀ e ∈ [XEvent.other 9, XEvent.other 3], e.isSelectionNotify = false) ∧
    envWaitOnly.connError = none ∧
    (x11_wait_text envWaitOnly ctx0 [XEvent.other 9, XEvent.other 3] = none ∧
      x11_wait_targets envWaitOnly ctx0 [XEvent.other 9, XEvent.other 3] = none) :=
  ⟨by decide, rfl,
    (c7_wait_ignores_unrelated envWaitOnly ctx0 [XEvent.other 9, XEvent.other 3]).2
      (by decide) rfl⟩

/-- With no remainder left unread, the text read reduces to decoding
the property bytes fetched by `x11TextRequest`. -/
theorem x11_read_text_decode (env : X11Env) (ctx : X11Ctx)
    (h : (env.getProperty (x11TextRequest ctx)).bytesAfter = 0) :
    (x11_read_converted_text env ctx).2 =
      match utf8Decode? (env.getProperty (x11TextRequest ctx)).value with
      | some s => .ok s
      | none => .err "invalid utf-8" := by
  simp only [x11_read_converted_text, get_full_property, x11TextRequest] at h ⊢
  rw [if_pos h]

/-- Claim C8: the property read performed after the matching
notification in `get_contents` uses delete-after-read disabled, the
client's own window and scratch property, the target format
`utf8_string` as the requested type, offset 0 and the maximum length
(`u32::MAX`), in one round trip; and whenever the reply leaves no
remainder (`bytes_after == 0`) the `debug_assert` does not fire, so the
call never panics. -/
theorem c8_property_read_params (env : X11Env) (ctx : X11Ctx) :
    (x11_read_converted_text env ctx).1 =
      ⟨false, ctx.window, ctx.property, ctx.utf8_string, 0, 4294967295⟩ ∧
    ((env.getProperty (x11TextRequest ctx)).bytesAfter = 0 →
      (x11_read_converted_text env ctx).2.isPanicked = false) := by
  refine ⟨rfl, fun h => ?_⟩
  rw [x11_read_text_decode env ctx h]
  cases utf8Decode? (env.getProperty (x11TextRequest ctx)).value <;> rfl

/-- Claim C8 (witness): the empty-clipboard reply has `bytes_after = 0`
and the read does not panic. -/
theorem c8_witness :
    (envEmptyClipboard.getProperty (x11TextRequest ctx0)).bytesAfter = 0 ∧
    (x11_read_converted_text envEmptyClipboard ctx0).2.isPanicked = false :=
  ⟨rfl, (c8_property_read_params envEmptyClipboard ctx0).2 rfl⟩

/-- Claim C9: once the notification arrives (and the reply fits in one
read), `get_contents` on the x11 backend returns an error when the
property bytes are not valid UTF-8, and returns `Ok s` exactly when the
bytes decode to `s` — never a partial or substituted string. -/
theorem c9_text_utf8_exact (env : X11Env) (ctx : X11Ctx) (w p : Nat)
    (es : List XEvent)
    (hev : env.events = XEvent.selectionNotify w p :: es)
    (h0 : (env.getProperty (x11TextRequest ctx)).bytesAfter = 0) :
    (utf8Decode? (env.getProperty (x11TextRequest ctx)).value = none →
      x11_get_contents env ctx = some (.err "invalid utf-8")) ∧
    (∀ s : String, x11_get_contents env ctx = some (.ok s) ↔
      utf8Decode? (env.getProperty (x11TextRequest ctx)).value = some s) := by
  have hrun : x11_get_contents env ctx = some (x11_read_converted_text env ctx).2 := by
    rw [x11_get_contents, hev]
    rfl
  rw [hrun, x11_read_text_decode env ctx h0]
  cases hdec : utf8Decode? (env.getProperty (x11TextRequest ctx)).value with
  | none => exact ⟨fun _ => rfl, fun s => by simp⟩
  | some v =>
    refine ⟨fun hn => by simp at hn, fun s => ?_⟩
    constructor
    · intro hs
      simp only [Option.some.injEq, Outcome.ok.injEq] at hs
      exact hs ▸ rfl
    · intro hs
      simp only [Option.some.injEq] at hs
      exact hs ▸ rfl

/-- Claim C9 (witness): a converted value of the single byte 255 is not
valid UTF-8 and `get_contents` returns the decode error. -/
theorem c9_witness :
    envBadUtf8.events = [XEvent.selectionNotify 1 5] ∧
    (envBadUtf8.getProperty (x11TextRequest ctx0)).bytesAfter = 0 ∧
    x11_get_contents envBadUtf8 ctx0 = some (.err "invalid utf-8") :=
  ⟨rfl, rfl, (c9_text_utf8_exact envBadUtf8 ctx0 1 5 [] rfl rfl).1 rfl⟩

/-- On normalized content types the macOS `From` conversion undoes
denormalization. -/
theorem contentTypeFromStr_denormalize (ct : ContentType)
    (h : osx_normalize_content_type ct = ct) :
    contentTypeFromStr (osx_denormalize_content_type ct) = ct := by
  cases ct with
  | text => decide
  | html => decide
  | pdf => decide
  | png => decide
  | rtf => decide
  | url => decide
  | custom s => exact h

/-- Setting data for pairwise-distinct fresh types appends them in
order. -/
theorem foldl_setDataForType (ps : List (String × List Nat)) (acc : PasteboardItem)
    (hdis : ∀ q ∈ ps, q.1 ∉ acc.entries.map Prod.fst)
    (hnd : (ps.map Prod.fst).Nodup) :
    ps.foldl (fun it q => setDataForType it q.1 q.2) acc = ⟨acc.entries ++ ps⟩ := by
  induction ps generalizing acc with
  | nil => simp
  | cons q ps ih =>
    simp only [List.map_cons, List.nodup_cons] at hnd
    have hq : q.1 ∉ acc.entries.map Prod.fst := hdis q (List.mem_cons_self _ _)
    have hany : acc.entries.any (fun e => e.1 = q.1) = false := by
      rw [List.any_eq_false]
      intro e he
      simp only [decide_eq_true_eq]
      intro heq
      exact hq (heq ▸ List.mem_map_of_mem Prod.fst he)
    have hstep : setDataForType acc q.1 q.2 = ⟨acc.entries ++ [q]⟩ := by
      simp [setDataForType, hany]
    have hdis' : ∀ r ∈ ps, r.1 ∉ (acc.entries ++ [q]).map Prod.fst := by
      intro r hr
      simp only [List.map_append, List.mem_append, List.map_cons, List.map_nil,
        List.mem_singleton, not_or]
      constructor
      · exact hdis r (List.mem_cons_of_mem _ hr)
      · intro heq
        exact hnd.1 (heq ▸ List.mem_map_of_mem Prod.fst hr)
    rw [List.foldl_cons, hstep, ih ⟨acc.entries ++ [q]⟩ hdis' hnd.2]
    simp

/-- Claim C5: a successful `set_content_types` on the macOS backend
replaces the whole payload: regardless of the prior pasteboard state,
the new state is exactly one item holding the mapping's pairs
(denormalized), and `get_content_types` afterwards yields exactly the
mapping's keys — old types are gone unless re-supplied.  The keys are
assumed normalized (the data-model invariant) and distinct (`HashMap`
keys). -/
theorem c5_set_content_types_replaces (pb : Pasteboard)
    (m : List (ContentType × List Nat))
    (hnorm : ∀ kv ∈ m, osx_normalize_content_type kv.1 = kv.1)
    (hkeys : (m.map Prod.fst).Nodup) :
    (osx_set_content_types pb m true).2 = .ok () ∧
    (osx_set_content_types pb m true).1 =
      ⟨[⟨m.map (fun kv => (osx_denormalize_content_type kv.1, kv.2))⟩]⟩ ∧
    osx_get_content_types (osx_set_content_types pb m true).1 =
      .ok (m.map Prod.fst) := by
  have hinj : ∀ x ∈ m.map Prod.fst, ∀ y ∈ m.map Prod.fst,
      osx_denormalize_content_type x = osx_denormalize_content_type y → x = y := by
    intro x hx y hy hxy
    obtain ⟨kvx, hkvx, rfl⟩ := List.mem_map.mp hx
    obtain ⟨kvy, hkvy, rfl⟩ := List.mem_map.mp hy
    calc kvx.1 = contentTypeFromStr (osx_denormalize_content_type kvx.1) :=
          (contentTypeFromStr_denormalize _ (hnorm kvx hkvx)).symm
      _ = contentTypeFromStr (osx_denormalize_content_type kvy.1) := by rw [hxy]
      _ = kvy.1 := contentTypeFromStr_denormalize _ (hnorm kvy hkvy)
  have hndden :
      ((m.map (fun kv => (osx_denormalize_content_type kv.1, kv.2))).map
        Prod.fst).Nodup := by
    have hmm : (m.map (fun kv => (osx_denormalize_content_type kv.1, kv.2))).map
        Prod.fst = (m.map Prod.fst).map osx_denormalize_content_type := by
      simp [List.map_map, Function.comp]
    rw [hmm]
    exact List.Nodup.map_on hinj hkeys
  have hfold : m.foldl
      (fun it kv => setDataForType it (osx_denormalize_content_type kv.1) kv.2)
      ⟨[]⟩ = ⟨m.map (fun kv => (osx_denormalize_content_type kv.1, kv.2))⟩ := by
    have := foldl_setDataForType
      (m.map (fun kv => (osx_denormalize_content_type kv.1, kv.2))) ⟨[]⟩
      (by simp) hndden
    rw [List.foldl_map] at this
    simpa using this
  refine ⟨rfl, ?_, ?_⟩
  · simp [osx_set_content_types, hfold]
  · simp only [osx_set_content_types, hfold, osx_get_content_types, first_item,
      List.head?, if_pos]
    rw [List.map_map]
    refine congrArg Outcome.ok (List.map_congr_left ?_)
    intro kv hkv
    exact contentTypeFromStr_denormalize kv.1 (hnorm kv hkv)

/-- Claim C5 (witness): replacing a nonempty pasteboard with a
two-entry mapping of normalized distinct keys yields exactly that
item, and the offered types are exactly the keys. -/
theorem c5_witness :
    (∀ kv ∈ mW, osx_normalize_content_type kv.1 = kv.1) ∧
    (mW.map Prod.fst).Nodup ∧
    ((osx_set_content_types pbW mW true).2 = .ok () ∧
      (osx_set_content_types pbW mW true).1 =
        ⟨[⟨mW.map (fun kv => (osx_denormalize_content_type kv.1, kv.2))⟩]⟩ ∧
      osx_get_content_types (osx_set_content_types pbW mW true).1 =
        .ok (mW.map Prod.fst)) :=
  ⟨by decide, by decide,
    c5_set_content_types_replaces pbW mW (by decide) (by decide)⟩

end Copypasta
